import Mathlib

/-!
Verification development for the MI-3 news ingestion pipeline.

Shallow embedding of the core components: the canonical item schema and its
content-hash identity (`storage/schemas.py`), the deduplicating / rate-limited
event bus (`bus/stream.py`), the webhook receiver with HMAC-SHA256 signature
checking (`adapters/webhook_adapter.py`), the payload normalizers
(`adapters/mappers.py`), the adaptive poll scheduler's host-interval update
(`ingest/adaptive_feeds_worker.py`), and the streaming hub's merge policy
(`realtime/hub.py`).

Numeric conventions: Python floats (timestamps, token counts, intervals) are
modelled as rationals; 32-bit words in SHA-256 are naturals reduced modulo
2^32.  Python strings are Lean `String`s (both sequences of code points).
-/

namespace MI3

/-! ## UTF-8 encoding (model of Python `str.encode('utf-8')`), bytes as Nat -/

/-- UTF-8 encoding of one code point, as a list of byte values. -/
def utf8EncodeCharNat (c : Char) : List Nat :=
  let n := c.toNat
  if n < 0x80 then [n]
  else if n < 0x800 then [0xC0 ||| (n >>> 6), 0x80 ||| (n &&& 0x3F)]
  else if n < 0x10000 then
    [0xE0 ||| (n >>> 12), 0x80 ||| ((n >>> 6) &&& 0x3F), 0x80 ||| (n &&& 0x3F)]
  else
    [0xF0 ||| (n >>> 18), 0x80 ||| ((n >>> 12) &&& 0x3F),
     0x80 ||| ((n >>> 6) &&& 0x3F), 0x80 ||| (n &&& 0x3F)]

/-- UTF-8 bytes of a string (model of `s.encode('utf-8')`). -/
def utf8Bytes (s : String) : List Nat :=
  (s.data.map utf8EncodeCharNat).flatten

/-! ## SHA-256 (FIPS 180-4) over byte lists, words as Nat mod 2^32 -/

/-- Reduce to a 32-bit word. -/
def w32 (x : Nat) : Nat := x % 4294967296

/-- Right rotation of a 32-bit word. -/
def rotr (n x : Nat) : Nat := w32 ((x >>> n) ||| (x <<< (32 - n)))

def shaCh (x y z : Nat) : Nat := (x &&& y) ^^^ ((x ^^^ 0xFFFFFFFF) &&& z)

def shaMaj (x y z : Nat) : Nat := (x &&& y) ^^^ (x &&& z) ^^^ (y &&& z)

def bigSigma0 (x : Nat) : Nat := rotr 2 x ^^^ rotr 13 x ^^^ rotr 22 x

def bigSigma1 (x : Nat) : Nat := rotr 6 x ^^^ rotr 11 x ^^^ rotr 25 x

def smallSigma0 (x : Nat) : Nat := rotr 7 x ^^^ rotr 18 x ^^^ (x >>> 3)

def smallSigma1 (x : Nat) : Nat := rotr 17 x ^^^ rotr 19 x ^^^ (x >>> 10)

/-- The 64 SHA-256 round constants. -/
def shaK : List Nat :=
  [1116352408, 1899447441, 3049323471, 3921009573, 961987163,
   1508970993, 2453635748, 2870763221, 3624381080, 310598401,
   607225278, 1426881987, 1925078388, 2162078206, 2614888103,
   3248222580, 3835390401, 4022224774, 264347078, 604807628,
   770255983, 1249150122, 1555081692, 1996064986, 2554220882,
   2821834349, 2952996808, 3210313671, 3336571891, 3584528711,
   113926993, 338241895, 666307205, 773529912, 1294757372,
   1396182291, 1695183700, 1986661051, 2177026350, 2456956037,
   2730485921, 2820302411, 3259730800, 3345764771, 3516065817,
   3600352804, 4094571909, 275423344, 430227734, 506948616,
   659060556, 883997877, 958139571, 1322822218, 1537002063,
   1747873779, 1955562222, 2024104815, 2227730452, 2361852424,
   2428436474, 2756734187, 3204031479, 3329325298]

/-- Group bytes into big-endian 32-bit words. -/
def bytesToWords : List Nat → List Nat
  | b0 :: b1 :: b2 :: b3 :: rest =>
      (((b0 * 256 + b1) * 256 + b2) * 256 + b3) :: bytesToWords rest
  | _ => []

/-- Big-endian 4-byte encoding of a word. -/
def wordToBytes (x : Nat) : List Nat :=
  [(x >>> 24) &&& 255, (x >>> 16) &&& 255, (x >>> 8) &&& 255, x &&& 255]

/-- Extend the message schedule: `acc` holds the words produced so far,
most recent first; produce `n` more words. -/
def extendSchedule : Nat → List Nat → List Nat
  | 0, acc => acc
  | n + 1, acc =>
      extendSchedule n
        (w32 (smallSigma1 (acc.getD 1 0) + acc.getD 6 0 +
              smallSigma0 (acc.getD 14 0) + acc.getD 15 0) :: acc)

/-- Full 64-word message schedule for one 64-byte block. -/
def schedule (block : List Nat) : List Nat :=
  (extendSchedule 48 (bytesToWords block).reverse).reverse

/-- Working state of the compression function. -/
structure Hash8 where
  a : Nat
  b : Nat
  c : Nat
  d : Nat
  e : Nat
  f : Nat
  g : Nat
  h : Nat

/-- One SHA-256 round. -/
def shaRound (s : Hash8) (kw : Nat × Nat) : Hash8 :=
  let t1 := w32 (s.h + bigSigma1 s.e + shaCh s.e s.f s.g + kw.1 + kw.2)
  let t2 := w32 (bigSigma0 s.a + shaMaj s.a s.b s.c)
  { a := w32 (t1 + t2), b := s.a, c := s.b, d := s.c,
    e := w32 (s.d + t1), f := s.e, g := s.f, h := s.g }

/-- Compress one 64-byte block into the running hash state. -/
def compressBlock (s : Hash8) (block : List Nat) : Hash8 :=
  let res := (shaK.zip (schedule block)).foldl shaRound s
  { a := w32 (s.a + res.a), b := w32 (s.b + res.b), c := w32 (s.c + res.c),
    d := w32 (s.d + res.d), e := w32 (s.e + res.e), f := w32 (s.f + res.f),
    g := w32 (s.g + res.g), h := w32 (s.h + res.h) }

/-- Initial SHA-256 hash value. -/
def shaInit : Hash8 :=
  { a := 1779033703, b := 3144134277, c := 1013904242, d := 2773480762,
    e := 1359893119, f := 2600822924, g := 528734635, h := 1541459225 }

/-- SHA-256 message padding: append 0x80, zeros, then the 64-bit
big-endian bit length. -/
def shaPad (msg : List Nat) : List Nat :=
  let len := msg.length
  let zeros := (119 - (len % 64)) % 64
  let bits := len * 8
  msg ++ [0x80] ++ List.replicate zeros 0 ++
    [(bits >>> 56) &&& 255, (bits >>> 48) &&& 255, (bits >>> 40) &&& 255,
     (bits >>> 32) &&& 255, (bits >>> 24) &&& 255, (bits >>> 16) &&& 255,
     (bits >>> 8) &&& 255, bits &&& 255]

/-- Split a list into 64-byte blocks; `fuel` bounds the recursion and any
value at least the list length is enough. -/
def toBlocks : Nat → List Nat → List (List Nat)
  | 0, _ => []
  | _, [] => []
  | fuel + 1, l => l.take 64 :: toBlocks fuel (l.drop 64)

/-- SHA-256 digest (32 bytes) of a byte list. -/
def sha256Bytes (msg : List Nat) : List Nat :=
  let padded := shaPad msg
  let final := (toBlocks padded.length padded).foldl compressBlock shaInit
  wordToBytes final.a ++ wordToBytes final.b ++ wordToBytes final.c ++
  wordToBytes final.d ++ wordToBytes final.e ++ wordToBytes final.f ++
  wordToBytes final.g ++ wordToBytes final.h

/-- Lower-case hex digit. -/
def hexDigit (n : Nat) : Char :=
  if n < 10 then Char.ofNat (48 + n) else Char.ofNat (87 + n)

/-- Lower-case hex rendering of a byte list. -/
def bytesToHex (bs : List Nat) : String :=
  String.mk ((bs.map (fun b => [hexDigit (b / 16), hexDigit (b % 16)])).flatten)

/-- Model of Python `hashlib.sha256(s.encode('utf-8')).hexdigest()`. -/
def sha256HexOfString (s : String) : String :=
  bytesToHex (sha256Bytes (utf8Bytes s))

/-- HMAC-SHA256 (RFC 2104) over byte lists. -/
def hmacSha256 (key msg : List Nat) : List Nat :=
  let k0 := if 64 < key.length then sha256Bytes key else key
  let kp := k0 ++ List.replicate (64 - k0.length) 0
  let ipadded := kp.map (fun b => b ^^^ 0x36)
  let opadded := kp.map (fun b => b ^^^ 0x5C)
  sha256Bytes (opadded ++ sha256Bytes (ipadded ++ msg))

/-- Hex digest of HMAC-SHA256, as produced by Python `hmac.new(...,
hashlib.sha256).hexdigest()`. -/
def hmacSha256Hex (key msg : List Nat) : String :=
  bytesToHex (hmacSha256 key msg)

/-! ## Datetimes

Model of the Python `datetime` values the pipeline manipulates.  The source
parses `published` strings with `dateutil.parser.parse`; the pipeline only
ever produces ISO-8601 strings (`datetime.isoformat` output), so the parser
below models `dateutil` behaviour on that ISO-8601 subset (date, optional
time, optional fractional seconds, optional `Z` / `+HH:MM` / `+HHMM`
offset), including calendar range validation. -/

/-- A Python `datetime`: naive when `tzOffsetMinutes` is `none`, aware
otherwise (offset east of UTC, in minutes). -/
structure PyDateTime where
  year : Nat
  month : Nat
  day : Nat
  hour : Nat
  minute : Nat
  second : Nat
  microsecond : Nat
  tzOffsetMinutes : Option Int
deriving DecidableEq, Repr

/-- Leap year rule (Gregorian). -/
def isLeapYear (y : Nat) : Bool :=
  (y % 4 = 0 && y % 100 ≠ 0) || y % 400 = 0

/-- Days in a month. -/
def daysInMonth (y m : Nat) : Nat :=
  if m = 2 then (if isLeapYear y then 29 else 28)
  else if m = 4 || m = 6 || m = 9 || m = 11 then 30
  else 31

/-- Read exactly `k` decimal digits, accumulating onto `acc`. -/
def readNatAux : Nat → Nat → List Char → Option (Nat × List Char)
  | 0, acc, cs => some (acc, cs)
  | k + 1, acc, c :: cs =>
      if c.isDigit then readNatAux k (acc * 10 + (c.toNat - 48)) cs else none
  | _ + 1, _, [] => none

/-- Read exactly `k` decimal digits. -/
def readNat (k : Nat) (cs : List Char) : Option (Nat × List Char) :=
  readNatAux k 0 cs

/-- Consume an expected character. -/
def expectChar (c : Char) : List Char → Option (List Char)
  | x :: xs => if x = c then some xs else none
  | [] => none

/-- Take the maximal run of leading digits. -/
def spanDigits : List Char → (List Char × List Char)
  | [] => ([], [])
  | c :: cs =>
      if c.isDigit then
        let (ds, rest) := spanDigits cs
        (c :: ds, rest)
      else ([], c :: cs)

/-- Fractional-second digits to a microsecond count (pad / truncate to six
digits, as `dateutil` does). -/
def fracToMicro (ds : List Char) : Nat :=
  ((ds ++ ['0', '0', '0', '0', '0', '0']).take 6).foldl
    (fun acc c => acc * 10 + (c.toNat - 48)) 0

/-- Parse a UTC-offset suffix: empty (naive), `Z`, or `±HH:MM` / `±HHMM`. -/
def parseOffset : List Char → Option (Option Int)
  | [] => some none
  | ['Z'] => some (some 0)
  | c :: cs =>
      if c = '+' || c = '-' then
        match readNat 2 cs with
        | some (hh, rest) =>
            let contd := match rest with
              | ':' :: rest2 => some rest2
              | _ => some rest
            match contd with
            | some rest2 =>
                match readNat 2 rest2 with
                | some (mm, []) =>
                    if hh ≤ 23 && mm ≤ 59 then
                      let total : Int := (hh * 60 + mm : Nat)
                      some (some (if c = '-' then -total else total))
                    else none
                | _ => none
            | none => none
        | none => none
      else none

/-- Parse the time-of-day part `HH:MM:SS[.ffffff][offset]`. -/
def parseTimePart (y m d : Nat) (cs : List Char) : Option PyDateTime := do
  let (hh, cs) ← readNat 2 cs
  let cs ← expectChar ':' cs
  let (mi, cs) ← readNat 2 cs
  let cs ← expectChar ':' cs
  let (ss, cs) ← readNat 2 cs
  let (micro, cs) :=
    match cs with
    | '.' :: rest =>
        let (ds, rest2) := spanDigits rest
        if ds = [] then (1000000, rest)  -- force failure below on bare dot
        else (fracToMicro ds, rest2)
    | _ => (0, cs)
  let off ← parseOffset cs
  if hh ≤ 23 && mi ≤ 59 && ss ≤ 59 && micro ≤ 999999 then
    some { year := y, month := m, day := d, hour := hh, minute := mi,
           second := ss, microsecond := micro, tzOffsetMinutes := off }
  else none

/-- Model of `dateutil.parser.parse` restricted to ISO-8601 input:
`YYYY-MM-DD` optionally followed by `T` or a space and a time-of-day. -/
def parseIso (s : String) : Option PyDateTime := do
  let cs := s.data
  let (y, cs) ← readNat 4 cs
  let cs ← expectChar '-' cs
  let (m, cs) ← readNat 2 cs
  let cs ← expectChar '-' cs
  let (d, cs) ← readNat 2 cs
  if 1 ≤ m && m ≤ 12 && 1 ≤ d && d ≤ daysInMonth y m then
    match cs with
    | [] => some { year := y, month := m, day := d, hour := 0, minute := 0,
                   second := 0, microsecond := 0, tzOffsetMinutes := none }
    | t :: rest =>
        if t = 'T' || t = ' ' then parseTimePart y m d rest else none
  else none

/-- Zero-padded two-digit rendering. -/
def pad2 (n : Nat) : String :=
  if n < 10 then "0" ++ toString n else toString n

/-- Zero-padded four-digit rendering. -/
def pad4 (n : Nat) : String :=
  if n < 10 then "000" ++ toString n
  else if n < 100 then "00" ++ toString n
  else if n < 1000 then "0" ++ toString n
  else toString n

/-- Zero-padded six-digit rendering. -/
def pad6 (n : Nat) : String :=
  if n < 10 then "00000" ++ toString n
  else if n < 100 then "0000" ++ toString n
  else if n < 1000 then "000" ++ toString n
  else if n < 10000 then "00" ++ toString n
  else if n < 100000 then "0" ++ toString n
  else toString n

/-- UTC-offset suffix in Python `isoformat` style (`+HH:MM`). -/
def fmtOffset (m : Int) : String :=
  if m < 0 then "-" ++ pad2 ((-m).toNat / 60) ++ ":" ++ pad2 ((-m).toNat % 60)
  else "+" ++ pad2 (m.toNat / 60) ++ ":" ++ pad2 (m.toNat % 60)

/-- Model of Python `datetime.isoformat()`. -/
def isoformat (dt : PyDateTime) : String :=
  pad4 dt.year ++ "-" ++ pad2 dt.month ++ "-" ++ pad2 dt.day ++ "T" ++
  pad2 dt.hour ++ ":" ++ pad2 dt.minute ++ ":" ++ pad2 dt.second ++
  (if dt.microsecond = 0 then "" else "." ++ pad6 dt.microsecond) ++
  (match dt.tzOffsetMinutes with
   | none => ""
   | some m => fmtOffset m)

/-- `dt.replace(second=0, microsecond=0)`: truncation to the minute. -/
def truncMinute (dt : PyDateTime) : PyDateTime :=
  { dt with second := 0, microsecond := 0 }

/-- Day count since 1970-01-01 for a civil date (Gregorian). -/
def daysFromCivil (y : Int) (m d : Nat) : Int :=
  let yAdj : Int := if m ≤ 2 then y - 1 else y
  let era := Int.fdiv yAdj 400
  let yoe := (yAdj - era * 400).toNat
  let mp := (m + 9) % 12
  let doy := (153 * mp + 2) / 5 + d - 1
  let doe := yoe * 365 + yoe / 4 - yoe / 100 + doy
  era * 146097 + (doe : Int) - 719468

/-- Civil date from a day count since 1970-01-01. -/
def civilFromDays (z0 : Int) : Int × Nat × Nat :=
  let z := z0 + 719468
  let era := Int.fdiv z 146097
  let doe := (z - era * 146097).toNat
  let yoe := (doe - doe / 1460 + doe / 36524 - doe / 146096) / 365
  let doy := doe - (365 * yoe + yoe / 4 - yoe / 100)
  let mp := (5 * doy + 2) / 153
  let d := doy - (153 * mp + 2) / 5 + 1
  let m := if mp < 10 then mp + 3 else mp - 9
  ((yoe : Int) + era * 400 + (if m ≤ 2 then 1 else 0), m, d)

/-- Model of `datetime.fromtimestamp(n, tz=timezone.utc)` for whole
seconds. -/
def epochToUtc (n : Int) : PyDateTime :=
  let days := Int.fdiv n 86400
  let rem := (n - days * 86400).toNat
  let ymd := civilFromDays days
  { year := ymd.1.toNat, month := ymd.2.1, day := ymd.2.2,
    hour := rem / 3600, minute := rem % 3600 / 60, second := rem % 60,
    microsecond := 0, tzOffsetMinutes := some 0 }

/-- Model of `dt.astimezone(timezone.utc)` for an aware datetime; naive
datetimes are returned unchanged (callers branch on awareness first). -/
def astimezoneUtc (dt : PyDateTime) : PyDateTime :=
  match dt.tzOffsetMinutes with
  | none => dt
  | some off =>
      let total := daysFromCivil dt.year dt.month dt.day * 86400 +
        (dt.hour * 3600 + dt.minute * 60 + dt.second : Nat) - off * 60
      { epochToUtc total with microsecond := dt.microsecond }

/-! ## JSON values and Python exceptions -/

/-- JSON values as delivered to the adapters (numbers restricted to the
integers, which is all the embedded payloads use). -/
inductive JValue where
  | str (s : String)
  | num (n : Int)
  | bool (b : Bool)
  | null
  | arr (xs : List JValue)
  | obj (fields : List (String × JValue))

/-- The Python exception classes the embedded code can raise. -/
inductive PyErr where
  | attributeError
  | keyError
  | typeError
  | valueError
  | unboundLocalError
deriving DecidableEq

/-- Python string slicing `s[:n]` (by code point). -/
def strTake (s : String) (n : Nat) : String := String.mk (s.data.take n)

/-- Python string slicing `s[n:]` (by code point). -/
def strDrop (s : String) (n : Nat) : String := String.mk (s.data.drop n)

/-! ## `storage/schemas.py`: the canonical RawItem -/

/-- `RawItem` (canonical schema, `storage/schemas.py`).  `raw_payload` is
the original vendor payload kept for diagnostics. -/
structure RawItem where
  id : String
  topic : String
  title : String
  link : String
  published : String
  source : String
  publisher : String
  summary : Option String := none
  tags : Option String := none
  rawPayload : Option (List (String × JValue)) := none

/-- `RawItem._normalize_published_for_id`: parse `published`, truncate to
the minute, re-render; empty or unparseable input yields `""`. -/
def normalizePublishedForId (published : String) : String :=
  if published = "" then ""
  else
    match parseIso published with
    | some dt => isoformat (truncMinute dt)
    | none => ""

/-- `RawItem.make_id`: first 16 hex characters of the SHA-256 of
`link|title|published_norm`. -/
def RawItem.makeId (it : RawItem) : String :=
  strTake
    (sha256HexOfString
      (it.link ++ "|" ++ it.title ++ "|" ++ normalizePublishedForId it.published))
    16

/-- `RawItem.__post_init__`: generate the id when empty, then require
`title`, `link`, `published`, `source`, `publisher` to be non-empty
(raising `ValueError` otherwise).  Constructing a `RawItem` in Python
always runs this, so the embedded constructor returns `Except`. -/
def mkRawItem (it0 : RawItem) : Except PyErr RawItem :=
  let it := if it0.id = "" then { it0 with id := it0.makeId } else it0
  if it.title ≠ "" && it.link ≠ "" && it.published ≠ "" && it.source ≠ "" &&
     it.publisher ≠ "" then
    .ok it
  else
    .error .valueError

/-- The dictionary shape `validate_raw_item` inspects (string-or-absent
fields, the form `RawItem.to_dict` produces). -/
structure ItemData where
  id : Option String := none
  title : Option String := none
  link : Option String := none
  published : Option String := none
  source : Option String := none
  publisher : Option String := none
deriving DecidableEq

/-- Python truthiness of `d.get(field)` for a string field. -/
def truthyOpt : Option String → Bool
  | none => false
  | some s => s ≠ ""

/-- `validate_raw_item`: the five required fields are present and
non-empty, and `published` parses as a date. -/
def validateRawItem (d : ItemData) : Bool :=
  truthyOpt d.title && truthyOpt d.link && truthyOpt d.published &&
  truthyOpt d.source && truthyOpt d.publisher &&
  (parseIso (d.published.getD "")).isSome

/-! ## `ingest/adaptive_feeds_worker.py`: the scheduler's local RawItem -/

namespace Worker

/-- The adaptive feed worker's local `RawItem` dataclass. -/
structure RawItem where
  id : String
  title : String
  link : String
  published : String
  source : String
  publisher : String
  summary : Option String := none
  category : Option String := none
deriving DecidableEq

/-- `RawItem.generate_id` (worker-local): first 16 hex characters of the
SHA-256 of the plain concatenation `title + link + published`. -/
def RawItem.generateId (it : RawItem) : String :=
  strTake (sha256HexOfString (it.title ++ it.link ++ it.published)) 16

end Worker

/-! ## `bus/stream.py`: the event bus

Timestamps and token counts (Python floats) are rationals; a single `now`
value stands for the `time.time()` readings within one call. -/

/-- Python `int(q)` (truncation toward zero). -/
def pyInt (q : ℚ) : Int := Int.tdiv q.num q.den

/-- `RateLimiter`: token bucket state. -/
structure RateLimiter where
  tokensPerSecond : ℚ
  maxTokens : ℚ
  tokens : ℚ
  lastUpdate : ℚ
deriving DecidableEq

/-- `RateLimiter.allow`: replenish `min(max_tokens, tokens +
elapsed * tokens_per_second)`, then consume one token if at least one is
available. -/
def RateLimiter.allow (rl : RateLimiter) (now : ℚ) : Bool × RateLimiter :=
  let elapsed := now - rl.lastUpdate
  let t := min rl.maxTokens (rl.tokens + elapsed * rl.tokensPerSecond)
  if 1 ≤ t then (true, { rl with tokens := t - 1, lastUpdate := now })
  else (false, { rl with tokens := t, lastUpdate := now })

/-- Run `n` consecutive `allow` calls at one instant, counting (accepted,
rejected). -/
def allowCount : RateLimiter → ℚ → Nat → Nat × Nat
  | _, _, 0 => (0, 0)
  | rl, now, n + 1 =>
      let step := rl.allow now
      let rest := allowCount step.2 now n
      if step.1 then (rest.1 + 1, rest.2) else (rest.1, rest.2 + 1)

/-- `StreamMessage`: the envelope stored in a channel. -/
structure StreamMessage where
  id : String
  channel : String
  data : ItemData
  timestamp : ℚ
  source : String
deriving DecidableEq

/-- Lookup in an insertion-ordered association list (a Python dict). -/
def lookupA {α : Type} (l : List (String × α)) (k : String) : Option α :=
  (l.find? (fun p => p.1 == k)).map (fun p => p.2)

/-- Dict assignment `d[k] = v`: replace in place if present, else append. -/
def setA {α : Type} (l : List (String × α)) (k : String) (v : α) :
    List (String × α) :=
  if (l.find? (fun p => p.1 == k)).isSome then
    l.map (fun p => if p.1 == k then (k, v) else p)
  else l ++ [(k, v)]

/-- `EventBus` state: configuration, per-channel bounded history, the
recent-id map (set and timestamp dict fused, insertion-ordered), and the
per-source rate limiters. -/
structure EventBus where
  maxRecentItems : Nat
  recentTtlSeconds : ℚ
  defaultRateLimit : ℚ
  channels : List (String × List StreamMessage)
  recent : List (String × ℚ)
  rateLimiters : List (String × RateLimiter)
deriving DecidableEq

/-- Remove the entry with the smallest timestamp (first such entry in
insertion order, as Python `min` over dict keys returns). -/
def removeOldestEntry (l : List (String × ℚ)) : List (String × ℚ) :=
  match l with
  | [] => []
  | x :: xs =>
      let best := xs.foldl (fun b p => if p.2 < b.2 then p else b) x
      l.eraseP (fun p => p.1 == best.1)

/-- The `while len > max` eviction loop of `_cleanup_recent`; each pass
removes one entry, so fuel equal to the list length suffices. -/
def evictOverCap : Nat → Nat → List (String × ℚ) → List (String × ℚ)
  | 0, _, l => l
  | fuel + 1, cap, l =>
      if cap < l.length then evictOverCap fuel cap (removeOldestEntry l)
      else l

/-- `EventBus._cleanup_recent`: drop entries older than `now - ttl`, then
evict globally-oldest entries while over the size cap. -/
def cleanupRecent (now ttl : ℚ) (cap : Nat) (l : List (String × ℚ)) :
    List (String × ℚ) :=
  let cutoff := now - ttl
  let kept := l.filter (fun p => decide (cutoff ≤ p.2))
  evictOverCap kept.length cap kept

/-- `EventBus._get_rate_limiter`: lazily create a limiter with capacity
`int(default_rate_limit * 5)` (a five-second burst). -/
def EventBus.getRateLimiter (st : EventBus) (source : String) (now : ℚ) :
    RateLimiter × EventBus :=
  match lookupA st.rateLimiters source with
  | some rl => (rl, st)
  | none =>
      let cap : ℚ := (pyInt (st.defaultRateLimit * 5) : ℤ)
      let rl : RateLimiter :=
        { tokensPerSecond := st.defaultRateLimit, maxTokens := cap,
          tokens := cap, lastUpdate := now }
      (rl, { st with rateLimiters := setA st.rateLimiters source rl })

/-- Append to a channel's `deque(maxlen=1000)`: the capacity is the
hard-coded 1000, not the configured `max_recent_items`. -/
def appendBounded (msgs : List StreamMessage) (m : StreamMessage) :
    List StreamMessage :=
  let l := msgs ++ [m]
  if 1000 < l.length then l.drop (l.length - 1000) else l

/-- `EventBus.xadd_json`: structural validation for `news.raw`, missing-id
check, per-source rate limiting, TTL deduplication (running the cleanup),
then append to the channel, mark the id seen.  Subscriber callbacks do not
touch bus state and are not modelled.  The fallback id for non-`news.raw`
channels renders `now` with `toString` where Python formats the float; only
its non-emptiness matters. -/
def EventBus.xaddJson (st : EventBus) (now : ℚ) (channel : String)
    (data : ItemData) (source : String) : Bool × EventBus :=
  if channel = "news.raw" && !(validateRawItem data) then (false, st)
  else
    let messageId :=
      if channel = "news.raw" then (data.id.getD "")
      else
        match data.id with
        | some i => i
        | none => channel ++ ":" ++ toString now
    if messageId = "" then (false, st)
    else
      let got := st.getRateLimiter source now
      let step := got.1.allow now
      let st2 := { got.2 with rateLimiters := setA got.2.rateLimiters source step.2 }
      if !step.1 then (false, st2)
      else
        let cleaned := cleanupRecent now st2.recentTtlSeconds st2.maxRecentItems st2.recent
        let st3 := { st2 with recent := cleaned }
        if (lookupA cleaned messageId).isSome then (false, st3)
        else
          let msg : StreamMessage :=
            { id := messageId, channel := channel, data := data,
              timestamp := now, source := source }
          let newChan := appendBounded ((lookupA st3.channels channel).getD []) msg
          (true,
           { st3 with channels := setA st3.channels channel newChan,
                      recent := cleaned ++ [(messageId, now)] })

/-- The published timestamp truncated to the minute, as used for identity:
`none` when absent or unparseable. -/
def truncatedPublished (s : String) : Option PyDateTime :=
  if s = "" then none else (parseIso s).map truncMinute

/-! ## `ingest/adaptive_feeds_worker.py`: host interval adaptation -/

/-- The scheduler-relevant realtime settings (`config/settings.py`,
`RealtimeSettings`). -/
structure WorkerSettings where
  pollBaselineSeconds : ℚ
  pollMinSeconds : ℚ
  pollMaxSeconds : ℚ
  backoffBase : ℚ
  backoffFactor : ℚ
deriving DecidableEq

/-- The documented defaults: 60s baseline, 30s min, 900s max, 30s backoff
base, factor 2. -/
def defaultWorkerSettings : WorkerSettings :=
  { pollBaselineSeconds := 60, pollMinSeconds := 30, pollMaxSeconds := 900,
    backoffBase := 30, backoffFactor := 2 }

/-- The aggregate outcome booleans `_update_host_state` derives from the
cycle's status codes (`None` = client/network error). -/
structure OutcomeFlags where
  hasSuccess : Bool
  hasNotModified : Bool
  hasRateLimit : Bool
  hasForbidden : Bool
  hasServerError : Bool
  hasClientError : Bool
deriving DecidableEq

/-- Flag extraction from `status_codes` as in `_update_host_state`. -/
def outcomeFlags (statusCodes : List (Option Nat)) : OutcomeFlags :=
  { hasSuccess := statusCodes.any (fun c => c == some 200),
    hasNotModified := statusCodes.any (fun c => c == some 304),
    hasRateLimit := statusCodes.any (fun c => c == some 429),
    hasForbidden := statusCodes.any (fun c => c == some 403),
    hasServerError := statusCodes.any (fun c =>
      match c with
      | some n => decide (n ≠ 0) && decide (500 ≤ n)
      | none => false),
    hasClientError := statusCodes.any (fun c => c.isNone) }

/-- The interval-adjustment cascade of `_update_host_state`: speed up on
new items, slow down (capped at twice the baseline) when unchanged,
exponential backoff (capped at `poll_max_seconds`) on errors, otherwise
unchanged. -/
def newInterval (s : WorkerSettings) (interval : ℚ) (flags : OutcomeFlags)
    (newItems : Nat) : ℚ :=
  if flags.hasSuccess && decide (0 < newItems) then
    max s.pollMinSeconds (interval * 0.9)
  else if flags.hasNotModified ||
      (flags.hasSuccess && decide (newItems = 0)) then
    min (interval * 1.1) (2 * s.pollBaselineSeconds)
  else if flags.hasRateLimit || flags.hasForbidden || flags.hasServerError ||
      flags.hasClientError then
    min (max interval s.backoffBase * s.backoffFactor) s.pollMaxSeconds
  else interval

/-- One `_update_host_state` step, restricted to the interval field. -/
def updateHostInterval (s : WorkerSettings) (statusCodes : List (Option Nat))
    (newItems : Nat) (interval : ℚ) : ℚ :=
  newInterval s interval (outcomeFlags statusCodes) newItems

/-! ## `adapters/webhook_adapter.py`: signature check and receiver -/

/-- The signature header `or`-chain of `receive_webhook`: `X-Signature`,
then the GitHub-style header, then the Slack-style header, then the
`authorization` header value (Python `or` takes the first truthy value,
else the last operand). -/
def effectiveSignature (xSig xHub xSlack : Option String) (auth : String) :
    String :=
  if xSig.getD "" ≠ "" then xSig.getD ""
  else if xHub.getD "" ≠ "" then xHub.getD ""
  else if xSlack.getD "" ≠ "" then xSlack.getD ""
  else auth

/-- Strip the accepted signature-header formats (`sha256=<hex>`,
`v0=<hex>`, bare value), by code points as Python slicing does. -/
def extractProvidedHash (signature : String) : String :=
  let cs := signature.data
  if "sha256=".data.isPrefixOf cs then String.mk (cs.drop 7)
  else if "v0=".data.isPrefixOf cs then String.mk (cs.drop 3)
  else signature

/-- `validate_signature`: reject when the secret or the signature is
empty, else compare the provided hash against the HMAC-SHA256 hex digest
of the raw body.  `hmac.compare_digest` is a constant-time comparison;
its value is string equality (its `TypeError` on non-ASCII input is
caught and yields `False`, which equals the comparison value since the
expected digest is ASCII hex). -/
def validateSignature (payloadBody : List Nat) (signature secret : String) :
    Bool :=
  if secret = "" || signature = "" then false
  else extractProvidedHash signature ==
    hmacSha256Hex (utf8Bytes secret) payloadBody

/-- Responses of the webhook endpoint: 401, 400 on undecodable JSON, or
202-style acceptance carrying the payload handed to the background
processing task. -/
inductive WebhookResponse where
  | unauthorized (detail : String)
  | badRequest
  | accepted (payload : JValue)

/-- `receive_webhook`: when a secret is configured, reject requests whose
signature is absent or fails validation before the body is parsed or
processed; otherwise parse the JSON body (`parsed` stands for the outcome
of the external `request.json()` decoder) and hand it to background
processing. -/
def receiveWebhook (secret : String) (body : List Nat)
    (xSig xHub xSlack : Option String) (auth : String)
    (parsed : Option JValue) : WebhookResponse :=
  let signature := effectiveSignature xSig xHub xSlack auth
  if secret ≠ "" then
    if signature = "" then .unauthorized "Missing signature"
    else if !(validateSignature body signature secret) then
      .unauthorized "Invalid signature"
    else
      match parsed with
      | none => .badRequest
      | some p => .accepted p
  else
    match parsed with
    | none => .badRequest
    | some p => .accepted p

/-! ## `realtime/hub.py`: the unified merged view -/

/-- The item-dictionary fields `get_latest_items` touches: identity,
ordering key, and the two legacy-mapping fields (absent key = `none`). -/
structure HubItem where
  id : Option String := none
  title : Option String := none
  published : Option String := none
  topic : Option String := none
  category : Option String := none
deriving DecidableEq

/-- `if 'category' in item and 'topic' not in item: item['topic'] =
item['category']` (key presence, not truthiness). -/
def legacyConvert (it : HubItem) : HubItem :=
  if it.category.isSome && it.topic.isNone then { it with topic := it.category }
  else it

/-- Descending order on the sort key `item.get('published', '')`; Python
string comparison is lexicographic by code point, as the `String` order
is. -/
def pubDescRel (a b : HubItem) : Prop :=
  b.published.getD "" ≤ a.published.getD ""

instance pubDescRel.decidableRel : DecidableRel pubDescRel :=
  fun a b => inferInstanceAs (Decidable (_ ≤ _))

instance pubDescRel.isTotal : IsTotal HubItem pubDescRel :=
  ⟨fun a b => le_total (b.published.getD "") (a.published.getD "")⟩

instance pubDescRel.isTrans : IsTrans HubItem pubDescRel :=
  ⟨fun _ _ _ hab hbc => le_trans hbc hab⟩

/-- One of the two accumulation loops of `get_latest_items`: append items
with a fresh non-empty id (converted by `conv` — the identity for event
bus items, the legacy mapping for snapshot items), tracking `seen_ids`. -/
def mergeLoop (conv : HubItem → HubItem) :
    List HubItem → List HubItem → List String →
    List HubItem × List String
  | [], acc, seen => (acc, seen)
  | x :: rest, acc, seen =>
      let i := x.id.getD ""
      if i ≠ "" ∧ i ∉ seen then
        mergeLoop conv rest (acc ++ [conv x]) (i :: seen)
      else mergeLoop conv rest acc seen

/-- `UnifiedDataManager.get_latest_items`: event bus items first, then
snapshot items, deduplicated against the running `seen_ids`, then the
stable descending sort by `published` (Python `list.sort(key=...,
reverse=True)` is stable, which `insertionSort` with `pubDescRel`
reproduces) and truncation to `limit`. -/
def getLatestItems (eventItems rssItems : List HubItem) (limit : Nat) :
    List HubItem :=
  let p1 := mergeLoop (fun x => x) eventItems [] []
  let p2 := mergeLoop legacyConvert rssItems p1.1 p1.2
  (List.insertionSort pubDescRel p2.1).take limit

/-- Functional form of the accumulation: first-occurrence filtering
against an ambient seen set. -/
def dedupFrom : List String → List HubItem → List HubItem
  | _, [] => []
  | seen, x :: rest =>
      let i := x.id.getD ""
      if i ≠ "" ∧ i ∉ seen then x :: dedupFrom (i :: seen) rest
      else dedupFrom seen rest

/-- The seen-id set after a pass. -/
def seenAfter : List String → List HubItem → List String
  | seen, [] => seen
  | seen, x :: rest =>
      let i := x.id.getD ""
      if i ≠ "" ∧ i ∉ seen then seenAfter (i :: seen) rest
      else seenAfter seen rest

/-- The spec's merge policy, stated directly: the union deduplicated by
id keeping the first occurrence (so an earlier bus item takes precedence
over a later snapshot item sharing its id). -/
def dedupById : List HubItem → List HubItem
  | [] => []
  | x :: rest =>
      x :: dedupById (rest.filter (fun y => !(y.id == x.id)))
termination_by l => l.length
decreasing_by
  simp only [List.length_cons]
  exact Nat.lt_succ_of_le (List.length_filter_le _ _)

/-! ## `adapters/mappers.py`: payload normalizers

Payloads are JSON dictionaries (`List (String × JValue)`), headers are
string dictionaries.  Field values the code stores into a `RawItem` are
modelled through their Python string rendering (`pyStr`); `None` becomes
`Option.none` for the optional fields.  `nowIso` stands for the
`datetime.now(timezone.utc).isoformat()` fallback the timestamp
normalizer produces. -/

/-- Python truthiness of a JSON value. -/
def pyTruthy : JValue → Bool
  | .str s => s ≠ ""
  | .num n => n ≠ 0
  | .bool b => b
  | .null => false
  | .arr xs => !xs.isEmpty
  | .obj fs => !fs.isEmpty

/-- `d.get(k, dflt)`: the default applies only when the key is absent. -/
def dictGet (d : List (String × JValue)) (k : String) (dflt : JValue) :
    JValue :=
  match lookupA d k with
  | some v => v
  | none => dflt

/-- `d[k]`: raises `KeyError` when absent. -/
def dictItem (d : List (String × JValue)) (k : String) :
    Except PyErr JValue :=
  match lookupA d k with
  | some v => .ok v
  | none => .error .keyError

/-- `headers.get(k, dflt)`. -/
def headersGet (headers : List (String × String)) (k dflt : String) :
    String :=
  match lookupA headers k with
  | some v => v
  | none => dflt

/-- A Python `or`-chain over values: the first truthy operand, else the
last. -/
def pyOr : List JValue → JValue
  | [] => .null
  | [x] => x
  | x :: rest => if pyTruthy x then x else pyOr rest

/-- `.lower()`: an `AttributeError` unless the value is a string. -/
def pyLower : JValue → Except PyErr String
  | .str s => .ok s.toLower
  | _ => .error .attributeError

/-- Contiguous-sublist check over char lists. -/
def listIsInfixOf (needle : List Char) : List Char → Bool
  | [] => needle.isEmpty
  | h :: t => needle.isPrefixOf (h :: t) || listIsInfixOf needle t

/-- Python substring membership `sub in s`. -/
def strContains (sub s : String) : Bool := listIsInfixOf sub.data s.data

/-- Python `str(v)` for the payload values that occur here (the rendering
of containers is not modelled further — no claim depends on it). -/
def pyStr : JValue → String
  | .str s => s
  | .num n => toString n
  | .bool b => if b then "True" else "False"
  | .null => "None"
  | .arr _ => "<arr>"
  | .obj _ => "<obj>"

/-- Python `str.strip()`. -/
def pyStrip (s : String) : String :=
  String.mk
    (((s.data.dropWhile Char.isWhitespace).reverse.dropWhile
      Char.isWhitespace).reverse)

/-- A `None`-valued field becomes `none`; anything else is kept (via its
string rendering). -/
def optStr : JValue → Option String
  | .null => none
  | v => some (pyStr v)

/-- `','.join(v)`: joins a list of strings (a `TypeError` on non-string
elements), the characters of a string, or a dictionary's keys (strings
here); anything else is not iterable and raises `TypeError`. -/
def pyJoinComma : JValue → Except PyErr String
  | .arr xs => do
      let parts ← xs.mapM (fun x =>
        match x with
        | .str s => Except.ok s
        | _ => Except.error PyErr.typeError)
      .ok (String.intercalate "," parts)
  | .str s => .ok (String.intercalate "," (s.data.map (fun c => String.mk [c])))
  | .obj fs => .ok (String.intercalate "," (fs.map (fun p => p.1)))
  | _ => .error .typeError

/-- `','.join(payload.get(key, [])) if payload.get(key) else None`. -/
def tagsJoin (payload : List (String × JValue)) (key : String) :
    Except PyErr (Option String) :=
  if pyTruthy (dictGet payload key .null) then do
    let s ← pyJoinComma (dictGet payload key (.arr []))
    .ok (some s)
  else .ok none

/-- `next((payload.get(f) for f in fields if payload.get(f)), dflt)`: the
first truthy field value, else the default. -/
def probeFields (payload : List (String × JValue)) :
    List String → JValue → JValue
  | [], dflt => dflt
  | f :: rest, dflt =>
      let v := dictGet payload f .null
      if pyTruthy v then v else probeFields payload rest dflt

/-- `RawItem._normalize_datetime`: falsy input falls back to the current
time; numbers are POSIX seconds (Python `bool` is an `int`, so a truthy
boolean is the timestamp 1); strings are parsed and converted to UTC
(naive values are assumed UTC); anything else falls back to the current
time, as do parse failures. -/
def normalizeDatetime (nowIso : String) (v : JValue) : String :=
  if !(pyTruthy v) then nowIso
  else
    match v with
    | .num n => isoformat (epochToUtc n)
    | .bool _ => isoformat (epochToUtc 1)
    | .str s =>
        match parseIso s with
        | some dt =>
            if dt.tzOffsetMinutes = none then
              isoformat { dt with tzOffsetMinutes := some 0 }
            else isoformat (astimezoneUtc dt)
        | none => nowIso
    | _ => nowIso

/-- `_map_reuters_ws`. -/
def mapReutersWs (nowIso : String) (payload cfg : List (String × JValue)) :
    Except PyErr RawItem := do
  let nameV ← dictItem cfg "name"
  let tags ← tagsJoin payload "tags"
  mkRawItem
    { id := "",
      topic := pyStr (dictGet payload "category" (dictGet cfg "topic" (.str "business"))),
      title := pyStr (dictGet payload "headline" (dictGet payload "title" (.str "No Title"))),
      link := pyStr (dictGet payload "url" (dictGet payload "link" (.str ""))),
      published := normalizeDatetime nowIso (dictGet payload "timestamp" (dictGet payload "published" .null)),
      source := "websocket:" ++ pyStr nameV,
      publisher := "Reuters",
      summary := optStr (dictGet payload "summary" (dictGet payload "lead" .null)),
      tags := tags,
      rawPayload := some payload }

/-- `_map_bloomberg_ws`. -/
def mapBloombergWs (nowIso : String) (payload cfg : List (String × JValue)) :
    Except PyErr RawItem := do
  let nameV ← dictItem cfg "name"
  mkRawItem
    { id := "",
      topic := pyStr (dictGet payload "topic" (dictGet payload "category" (dictGet cfg "topic" (.str "markets")))),
      title := pyStr (dictGet payload "headline" (dictGet payload "title" (.str "No Title"))),
      link := pyStr (dictGet payload "url" (dictGet payload "story_url" (.str ""))),
      published := normalizeDatetime nowIso (dictGet payload "datetime" (dictGet payload "timestamp" .null)),
      source := "websocket:" ++ pyStr nameV,
      publisher := "Bloomberg",
      summary := optStr (dictGet payload "summary" (dictGet payload "abstract" .null)),
      tags := optStr (dictGet payload "keywords" .null),
      rawPayload := some payload }

/-- `_map_cnbc_ws`. -/
def mapCnbcWs (nowIso : String) (payload cfg : List (String × JValue)) :
    Except PyErr RawItem := do
  let nameV ← dictItem cfg "name"
  mkRawItem
    { id := "",
      topic := pyStr (dictGet payload "section" (dictGet cfg "topic" (.str "business"))),
      title := pyStr (dictGet payload "title" (dictGet payload "headline" (.str "No Title"))),
      link := pyStr (dictGet payload "link" (dictGet payload "url" (.str ""))),
      published := normalizeDatetime nowIso (dictGet payload "datePublished" (dictGet payload "timestamp" .null)),
      source := "websocket:" ++ pyStr nameV,
      publisher := "CNBC",
      summary := optStr (dictGet payload "description" (dictGet payload "summary" .null)),
      tags := none,
      rawPayload := some payload }

/-- `_map_generic_ws`. -/
def mapGenericWs (nowIso : String) (payload cfg : List (String × JValue)) :
    Except PyErr RawItem := do
  let nameV ← dictItem cfg "name"
  let nameV2 ← dictItem cfg "name"
  mkRawItem
    { id := "",
      topic := pyStr (dictGet cfg "topic" (.str "news")),
      title := pyStrip (pyStr (probeFields payload ["title", "headline", "subject", "summary"] (.str "No Title"))),
      link := pyStrip (pyStr (probeFields payload ["url", "link", "href", "story_url"] (.str ""))),
      published := normalizeDatetime nowIso (probeFields payload ["timestamp", "published", "datetime", "created_at", "date"] .null),
      source := "websocket:" ++ pyStr nameV,
      publisher := pyStr (dictGet cfg "publisher" nameV2),
      summary := optStr (probeFields payload ["summary", "description", "body", "abstract", "lead"] .null),
      tags := none,
      rawPayload := some payload }

/-- `_map_reuters_webhook`. -/
def mapReutersWebhook (nowIso : String) (payload : List (String × JValue)) :
    Except PyErr RawItem := do
  let tags ← tagsJoin payload "topics"
  mkRawItem
    { id := "",
      topic := pyStr (dictGet payload "category" (.str "business")),
      title := pyStr (dictGet payload "headline" (dictGet payload "title" (.str "No Title"))),
      link := pyStr (dictGet payload "canonical_url" (dictGet payload "url" (.str ""))),
      published := normalizeDatetime nowIso (dictGet payload "date_published" .null),
      source := "webhook:reuters",
      publisher := "Reuters",
      summary := optStr (dictGet payload "description" (dictGet payload "lead" .null)),
      tags := tags,
      rawPayload := some payload }

/-- `_map_bloomberg_webhook`. -/
def mapBloombergWebhook (nowIso : String)
    (payload : List (String × JValue)) : Except PyErr RawItem := do
  let tags ← tagsJoin payload "tags"
  mkRawItem
    { id := "",
      topic := pyStr (dictGet payload "primary_category" (dictGet payload "category" (.str "markets"))),
      title := pyStr (dictGet payload "headline" (.str "No Title")),
      link := pyStr (dictGet payload "story_url" (dictGet payload "url" (.str ""))),
      published := normalizeDatetime nowIso (dictGet payload "published_at" .null),
      source := "webhook:bloomberg",
      publisher := "Bloomberg",
      summary := optStr (dictGet payload "abstract" (dictGet payload "summary" .null)),
      tags := tags,
      rawPayload := some payload }

/-- `_map_cnbc_webhook`. -/
def mapCnbcWebhook (nowIso : String) (payload : List (String × JValue)) :
    Except PyErr RawItem :=
  mkRawItem
    { id := "",
      topic := pyStr (dictGet payload "section" (.str "business")),
      title := pyStr (dictGet payload "headline" (dictGet payload "title" (.str "No Title"))),
      link := pyStr (dictGet payload "url" (.str "")),
      published := normalizeDatetime nowIso (dictGet payload "dateFirstPublished" .null),
      source := "webhook:cnbc",
      publisher := "CNBC",
      summary := optStr (dictGet payload "description" .null),
      tags := none,
      rawPayload := some payload }

/-- `_map_yahoo_webhook`. -/
def mapYahooWebhook (nowIso : String) (payload : List (String × JValue)) :
    Except PyErr RawItem :=
  mkRawItem
    { id := "",
      topic := pyStr (dictGet payload "category" (.str "finance")),
      title := pyStr (dictGet payload "title" (.str "No Title")),
      link := pyStr (dictGet payload "link" (.str "")),
      published := normalizeDatetime nowIso (dictGet payload "pubDate" .null),
      source := "webhook:yahoo",
      publisher := "Yahoo Finance",
      summary := optStr (dictGet payload "summary" .null),
      tags := none,
      rawPayload := some payload }

/-- `_map_generic_webhook` (recomputes its vendor from `X-Vendor`). -/
def mapGenericWebhook (nowIso : String) (payload : List (String × JValue))
    (headers : List (String × String)) : Except PyErr RawItem := do
  let vendor := headersGet headers "X-Vendor" "unknown"
  mkRawItem
    { id := "",
      topic := pyStr (dictGet payload "category" (dictGet payload "topic" (.str "news"))),
      title := pyStrip (pyStr (probeFields payload ["title", "headline", "subject", "name"] (.str "No Title"))),
      link := pyStrip (pyStr (probeFields payload ["url", "link", "href", "canonical_url", "story_url"] (.str ""))),
      published := normalizeDatetime nowIso (probeFields payload ["published", "datePublished", "created_at", "timestamp", "date"] .null),
      source := "webhook:" ++ vendor,
      publisher := pyStr (dictGet payload "publisher" (.str vendor)),
      summary := optStr (probeFields payload ["description", "summary", "abstract", "excerpt"] .null),
      tags := none,
      rawPayload := some payload }

/-- `_map_bloomberg_newswire`. -/
def mapBloombergNewswire (nowIso : String)
    (payload cfg : List (String × JValue)) : Except PyErr RawItem := do
  let vendorV ← dictItem cfg "vendor"
  let tags ← tagsJoin payload "topics"
  mkRawItem
    { id := "",
      topic := pyStr (dictGet cfg "topic" (dictGet payload "category" (.str "markets"))),
      title := pyStr (dictGet payload "headline" (dictGet payload "title" (.str "No Title"))),
      link := pyStr (dictGet payload "url" (.str ("bloomberg://story/" ++ pyStr (dictGet payload "story_id" (.str ""))))),
      published := normalizeDatetime nowIso (dictGet payload "published_date" .null),
      source := "newswire:" ++ pyStr vendorV,
      publisher := "Bloomberg Terminal",
      summary := optStr (dictGet payload "story_abstract" .null),
      tags := tags,
      rawPayload := some payload }

/-- `_map_reuters_newswire`. -/
def mapReutersNewswire (nowIso : String)
    (payload cfg : List (String × JValue)) : Except PyErr RawItem := do
  let vendorV ← dictItem cfg "vendor"
  mkRawItem
    { id := "",
      topic := pyStr (dictGet cfg "topic" (dictGet payload "category" (.str "business"))),
      title := pyStr (dictGet payload "headline" (.str "No Title")),
      link := pyStr (dictGet payload "url" (.str ("reuters://story/" ++ pyStr (dictGet payload "storyId" (.str ""))))),
      published := normalizeDatetime nowIso (dictGet payload "versionCreated" .null),
      source := "newswire:" ++ pyStr vendorV,
      publisher := "Reuters Terminal",
      summary := optStr (dictGet payload "bodyText" .null),
      tags := optStr (dictGet payload "subject" .null),
      rawPayload := some payload }

/-- `_map_dow_jones_newswire`. -/
def mapDowJonesNewswire (nowIso : String)
    (payload cfg : List (String × JValue)) : Except PyErr RawItem := do
  let vendorV ← dictItem cfg "vendor"
  mkRawItem
    { id := "",
      topic := pyStr (dictGet cfg "topic" (dictGet payload "category" (.str "business"))),
      title := pyStr (dictGet payload "headline" (dictGet payload "title" (.str "No Title"))),
      link := pyStr (dictGet payload "url" (.str ("factiva://article/" ++ pyStr (dictGet payload "an" (.str ""))))),
      published := normalizeDatetime nowIso (dictGet payload "publication_date" .null),
      source := "newswire:" ++ pyStr vendorV,
      publisher := pyStr (dictGet payload "source_name" (.str "Dow Jones")),
      summary := optStr (dictGet payload "snippet" (dictGet payload "lead_paragraph" .null)),
      tags := none,
      rawPayload := some payload }

/-- `_map_generic_newswire`. -/
def mapGenericNewswire (nowIso : String)
    (payload cfg : List (String × JValue)) : Except PyErr RawItem := do
  let vendorV ← dictItem cfg "vendor"
  let vendorV2 ← dictItem cfg "vendor"
  mkRawItem
    { id := "",
      topic := pyStr (dictGet cfg "topic" (.str "news")),
      title := pyStrip (pyStr (probeFields payload ["headline", "title", "subject"] (.str "No Title"))),
      link := pyStrip (pyStr (probeFields payload ["url", "link", "uri"] (.str ""))),
      published := normalizeDatetime nowIso (probeFields payload ["published_date", "date_created", "timestamp"] .null),
      source := "newswire:" ++ pyStr vendorV,
      publisher := pyStr (dictGet cfg "publisher" vendorV2),
      summary := optStr (probeFields payload ["body", "text", "summary", "abstract"] .null),
      tags := none,
      rawPayload := some payload }

/-- `map_ws_payload_to_raw`: vendor dispatch; any failure inside the
`try` is caught and logged (the handler itself only calls `cfg.get`,
which cannot fail), yielding `none`. -/
def mapWsPayloadToRaw (nowIso : String)
    (payload cfg : List (String × JValue)) : Except PyErr (Option RawItem) :=
  match pyLower (dictGet cfg "name" (.str "unknown")) with
  | .error _ => .ok none
  | .ok vendor =>
      let mapped :=
        if strContains "reuters" vendor then mapReutersWs nowIso payload cfg
        else if strContains "bloomberg" vendor then
          mapBloombergWs nowIso payload cfg
        else if strContains "cnbc" vendor then mapCnbcWs nowIso payload cfg
        else mapGenericWs nowIso payload cfg
      match mapped with
      | .error _ => .ok none
      | .ok item => .ok (some item)

/-- `map_webhook_payload_to_raw`: the vendor hint is the lowered value of
an `or`-chain over headers and payload fields.  When computing that hint
itself raises (a truthy non-string `vendor`/`source` payload field), the
`except` handler's log line references the still-unassigned local
`vendor`, so an `UnboundLocalError` escapes the function; failures after
the assignment are caught and yield `none`. -/
def mapWebhookPayloadToRaw (nowIso : String)
    (payload : List (String × JValue)) (headers : List (String × String)) :
    Except PyErr (Option RawItem) :=
  match pyLower (pyOr [.str (headersGet headers "X-Vendor" ""),
      .str (headersGet headers "User-Agent" ""),
      dictGet payload "vendor" (.str ""),
      dictGet payload "source" (.str "unknown")]) with
  | .error _ => .error .unboundLocalError
  | .ok vendor =>
      let mapped :=
        if strContains "reuters" vendor then mapReutersWebhook nowIso payload
        else if strContains "bloomberg" vendor then
          mapBloombergWebhook nowIso payload
        else if strContains "cnbc" vendor || strContains "nbc" vendor then
          mapCnbcWebhook nowIso payload
        else if strContains "yahoo" vendor then mapYahooWebhook nowIso payload
        else mapGenericWebhook nowIso payload headers
      match mapped with
      | .error _ => .ok none
      | .ok item => .ok (some item)

/-- `map_newswire_to_raw`: vendor dispatch by exact name; failures are
caught (the handler only calls `cfg.get`), yielding `none`. -/
def mapNewswireToRaw (nowIso : String)
    (payload cfg : List (String × JValue)) : Except PyErr (Option RawItem) :=
  match pyLower (dictGet cfg "vendor" (.str "unknown")) with
  | .error _ => .ok none
  | .ok vendor =>
      let mapped :=
        if vendor = "bloomberg" || vendor = "bloomberg_api" then
          mapBloombergNewswire nowIso payload cfg
        else if vendor = "reuters" || vendor = "reuters_eikon" then
          mapReutersNewswire nowIso payload cfg
        else if vendor = "dow_jones" || vendor = "factiva" then
          mapDowJonesNewswire nowIso payload cfg
        else mapGenericNewswire nowIso payload cfg
      match mapped with
      | .error _ => .ok none
      | .ok item => .ok (some item)

/-- `safe_map_payload`: dispatch on the adapter type (raising
`ValueError` on a falsy config/headers or an unknown type), with an outer
handler that converts any escaping exception — including the webhook
mapper's `UnboundLocalError` — into `none`. -/
def safeMapPayload (nowIso : String) (payload : List (String × JValue))
    (adapterType : String) (config : Option (List (String × JValue)))
    (headers : Option (List (String × String))) : Option RawItem :=
  let inner : Except PyErr (Option RawItem) :=
    if adapterType = "websocket" then
      match config with
      | some cfg =>
          if cfg.isEmpty then .error .valueError
          else mapWsPayloadToRaw nowIso payload cfg
      | none => .error .valueError
    else if adapterType = "webhook" then
      match headers with
      | some hs =>
          if hs.isEmpty then .error .valueError
          else mapWebhookPayloadToRaw nowIso payload hs
      | none => .error .valueError
    else if adapterType = "newswire" then
      match config with
      | some cfg =>
          if cfg.isEmpty then .error .valueError
          else mapNewswireToRaw nowIso payload cfg
      | none => .error .valueError
    else .error .valueError
  match inner with
  | .error _ => none
  | .ok r => r

set_option maxRecDepth 20000 in
/-- Sanity anchor: FIPS 180-4 test vector for "abc". -/
theorem sha256_vector_abc :
    sha256HexOfString "abc" =
      "ba7816bf8f01cfea414140de5dae2223b00361a396177a9cb410ff61f20015ad" := by
  decide

set_option maxRecDepth 20000 in
/-- Sanity anchor: RFC 4231 HMAC-SHA256 test case 2. -/
theorem hmac_vector_jefe :
    hmacSha256Hex (utf8Bytes "Jefe") (utf8Bytes "what do ya want for nothing?") =
      "5bdcc146bf60754e6a042426089575c75a003f089d2739839dec58b964ec3843" := by
  decide

/-- `_normalize_published_for_id` is determined by the minute-truncated
parse result. -/
theorem normalizePublished_eq (s : String) :
    normalizePublishedForId s = (truncatedPublished s).elim "" isoformat := by
  unfold normalizePublishedForId truncatedPublished
  by_cases h : s = ""
  · simp [h]
  · simp only [h, if_neg, if_false]
    cases parseIso s <;> simp

/-- C1: two items with equal link, equal title, and published timestamps
equal once truncated to the minute receive the same generated id, and the
id is the (truncated) SHA-256 hash of `link|title|published_norm`. -/
theorem claim_C1_id_stability (a b : RawItem)
    (hl : a.link = b.link) (ht : a.title = b.title)
    (hp : truncatedPublished a.published = truncatedPublished b.published) :
    a.makeId = b.makeId ∧
    a.makeId = strTake (sha256HexOfString
      (a.link ++ "|" ++ a.title ++ "|" ++
        normalizePublishedForId a.published)) 16 := by
  have hn : normalizePublishedForId a.published
      = normalizePublishedForId b.published := by
    rw [normalizePublished_eq, normalizePublished_eq, hp]
  refine ⟨?_, rfl⟩
  unfold RawItem.makeId
  rw [hl, ht, hn]

set_option maxRecDepth 20000 in
/-- C1 witness: two concrete items differing only in the seconds of their
published timestamps share one id. -/
theorem claim_C1_id_stability_witness :
    truncatedPublished "2024-01-01T00:00:30Z" =
      truncatedPublished "2024-01-01T00:00:45+00:00" ∧
    ({ id := "", topic := "news", title := "A", link := "http://x/1",
       published := "2024-01-01T00:00:30Z", source := "rss",
       publisher := "X" } : RawItem).makeId =
    ({ id := "", topic := "news", title := "A", link := "http://x/1",
       published := "2024-01-01T00:00:45+00:00", source := "rss",
       publisher := "X" } : RawItem).makeId :=
  ⟨by decide, (claim_C1_id_stability _ _ rfl rfl (by decide)).1⟩

set_option maxRecDepth 40000 in
/-- C7 counterexample: for a concrete parsed entry, the scheduler's local
id (hash of `title + link + published`, no separators, full precision)
differs from the canonical §3 id (hash of `link|title|published` truncated
to the minute). -/
theorem claim_C7_counterexample :
    ({ id := "x", title := "a", link := "b",
       published := "2024-01-02T03:04:05+00:00", source := "s",
       publisher := "p" } : Worker.RawItem).generateId ≠
    ({ id := "x", topic := "t", title := "a", link := "b",
       published := "2024-01-02T03:04:05+00:00", source := "s",
       publisher := "p" } : RawItem).makeId := by
  decide

/-- C7 amended: the scheduler's local seen-id deduplication uses its own
identity rule — the truncated SHA-256 of the exact concatenation
`title + link + published` — which is deterministic in (title, link,
published) but is not the canonical §3 identity. -/
theorem claim_C7_local_identity (e1 e2 : Worker.RawItem)
    (ht : e1.title = e2.title) (hl : e1.link = e2.link)
    (hp : e1.published = e2.published) :
    e1.generateId = e2.generateId ∧
    e1.generateId =
      strTake (sha256HexOfString (e1.title ++ e1.link ++ e1.published)) 16 := by
  refine ⟨?_, rfl⟩
  unfold Worker.RawItem.generateId
  rw [ht, hl, hp]

/-- C7 amended witness: two concrete entries with the same title, link and
exact published string get the same local id. -/
theorem claim_C7_local_identity_witness :
    ({ id := "x", title := "a", link := "b",
       published := "2024-01-02T03:04:05+00:00", source := "s1",
       publisher := "p1" } : Worker.RawItem).generateId =
    ({ id := "y", title := "a", link := "b",
       published := "2024-01-02T03:04:05+00:00", source := "s2",
       publisher := "p2" } : Worker.RawItem).generateId :=
  (claim_C7_local_identity _ _ rfl rfl rfl).1


theorem getRateLimiter_channels (st : EventBus) (s : String) (now : ℚ) :
    ((st.getRateLimiter s now).2).channels = st.channels := by
  unfold EventBus.getRateLimiter
  cases lookupA st.rateLimiters s <;> rfl

theorem getRateLimiter_recent (st : EventBus) (s : String) (now : ℚ) :
    ((st.getRateLimiter s now).2).recent = st.recent := by
  unfold EventBus.getRateLimiter
  cases lookupA st.rateLimiters s <;> rfl

theorem getRateLimiter_ttl (st : EventBus) (s : String) (now : ℚ) :
    ((st.getRateLimiter s now).2).recentTtlSeconds = st.recentTtlSeconds := by
  unfold EventBus.getRateLimiter
  cases lookupA st.rateLimiters s <;> rfl

theorem getRateLimiter_max (st : EventBus) (s : String) (now : ℚ) :
    ((st.getRateLimiter s now).2).maxRecentItems = st.maxRecentItems := by
  unfold EventBus.getRateLimiter
  cases lookupA st.rateLimiters s <;> rfl

theorem xaddJson_shape (st : EventBus) (now : ℚ) (channel : String)
    (data : ItemData) (source : String) :
    ((st.xaddJson now channel data source).1 = false ∧
      (st.xaddJson now channel data source).2.channels = st.channels) ∨
    ((st.xaddJson now channel data source).1 = true ∧
      ∃ m : StreamMessage,
        (st.xaddJson now channel data source).2.channels =
          setA st.channels channel
            (appendBounded ((lookupA st.channels channel).getD []) m)) := by
  unfold EventBus.xaddJson
  dsimp only
  repeat' split
  all_goals first
    | exact Or.inl ⟨rfl, rfl⟩
    | exact Or.inl ⟨rfl, by simp [getRateLimiter_channels]⟩
    | exact Or.inr ⟨rfl, ⟨_, by simp [getRateLimiter_channels]; try rfl⟩⟩

theorem claim_C2_duplicate_rejected (st : EventBus) (now : ℚ)
    (channel source : String) (data : ItemData) (mid : String)
    (hid : data.id = some mid)
    (hvalid : validateRawItem data = true)
    (hseen : (lookupA (cleanupRecent now st.recentTtlSeconds st.maxRecentItems
        st.recent) mid).isSome = true) :
    (st.xaddJson now channel data source).1 = false ∧
    (st.xaddJson now channel data source).2.channels = st.channels := by
  have hfalse : (st.xaddJson now channel data source).1 = false := by
    unfold EventBus.xaddJson
    dsimp only
    repeat' split
    all_goals first
      | rfl
      | (exfalso
         simp only [getRateLimiter_ttl, getRateLimiter_max,
           getRateLimiter_recent, hid, Option.getD_some] at *
         simp_all)
  rcases xaddJson_shape st now channel data source with ⟨_, hc⟩ | ⟨htrue, _⟩
  · exact ⟨hfalse, hc⟩
  · rw [hfalse] at htrue; cases htrue

theorem claim_C8_invalid_rejected (st : EventBus) (now : ℚ)
    (data : ItemData) (source : String)
    (hinvalid : validateRawItem data = false) :
    (st.xaddJson now "news.raw" data source).1 = false ∧
    (st.xaddJson now "news.raw" data source).2.rateLimiters = st.rateLimiters ∧
    (st.xaddJson now "news.raw" data source).2.channels = st.channels := by
  unfold EventBus.xaddJson
  simp [hinvalid]

theorem allowCount_integral (r cap now : ℚ) :
    ∀ (n m : Nat), (m : ℚ) ≤ cap →
      allowCount { tokensPerSecond := r, maxTokens := cap,
                   tokens := (m : ℚ), lastUpdate := now } now n =
        (min n m, n - min n m) := by
  intro n
  induction n with
  | zero => intro m hm; simp [allowCount]
  | succ n ih =>
      intro m hm
      have hstep : ({ tokensPerSecond := r, maxTokens := cap,
                      tokens := (m : ℚ), lastUpdate := now } : RateLimiter).allow now =
          (if 1 ≤ (m : ℚ) then
            (true, { tokensPerSecond := r, maxTokens := cap,
                     tokens := (m : ℚ) - 1, lastUpdate := now })
           else
            (false, { tokensPerSecond := r, maxTokens := cap,
                      tokens := (m : ℚ), lastUpdate := now })) := by
        unfold RateLimiter.allow
        dsimp only
        rw [sub_self, zero_mul, add_zero, min_eq_right hm]
      rcases m with _ | m'
      · have h0 : ¬ (1 : ℚ) ≤ ((0 : Nat) : ℚ) := by norm_num
        rw [if_neg h0] at hstep
        simp only [allowCount, hstep]
        rw [ih 0 (by simpa using hm)]
        simp
      · have h1 : (1 : ℚ) ≤ ((m' + 1 : Nat) : ℚ) := by
          push_cast; linarith [Nat.cast_nonneg (α := ℚ) m']
        rw [if_pos h1] at hstep
        have hcast : ((m' + 1 : Nat) : ℚ) - 1 = ((m' : Nat) : ℚ) := by
          push_cast; ring
        rw [hcast] at hstep
        have hm' : ((m' : Nat) : ℚ) ≤ cap := by
          refine le_trans ?_ hm
          push_cast; linarith
        simp only [allowCount, hstep]
        rw [ih m' hm']
        simp [Nat.succ_min_succ, Nat.succ_sub_succ]

theorem claim_C3_burst (st : EventBus) (source : String) (t0 r : ℚ)
    (b k : Nat)
    (hr : st.defaultRateLimit = r)
    (hfresh : lookupA st.rateLimiters source = none)
    (hb : pyInt (r * 5) = (b : Int)) :
    allowCount ((st.getRateLimiter source t0).1) t0 (b + k) = (b, k) ∧
    (∀ (lim : RateLimiter) (inst : ℚ),
      (lim.allow inst).2.tokens =
        (if 1 ≤ min lim.maxTokens
              (lim.tokens + (inst - lim.lastUpdate) * lim.tokensPerSecond) then
          min lim.maxTokens
            (lim.tokens + (inst - lim.lastUpdate) * lim.tokensPerSecond) - 1
         else
          min lim.maxTokens
            (lim.tokens + (inst - lim.lastUpdate) * lim.tokensPerSecond)) ∧
      (lim.allow inst).1 =
        decide (1 ≤ min lim.maxTokens
          (lim.tokens + (inst - lim.lastUpdate) * lim.tokensPerSecond))) := by
  constructor
  · have hrl : (st.getRateLimiter source t0).1 =
        { tokensPerSecond := r, maxTokens := ((b : Nat) : ℚ),
          tokens := ((b : Nat) : ℚ), lastUpdate := t0 } := by
      unfold EventBus.getRateLimiter
      rw [hfresh]
      dsimp only
      rw [hr, hb]
      push_cast
      rfl
    rw [hrl, allowCount_integral r ((b : Nat) : ℚ) t0 (b + k) b le_rfl]
    have : min (b + k) b = b := min_eq_right (Nat.le_add_right b k)
    rw [this]
    simp
  · intro lim inst
    unfold RateLimiter.allow
    dsimp only
    constructor
    · split <;> rfl
    · split <;> simp_all

theorem mem_setA {α : Type} {l : List (String × α)} {k : String} {v : α}
    {p : String × α} (hp : p ∈ setA l k v) : p = (k, v) ∨ p ∈ l := by
  unfold setA at hp
  split at hp
  · rcases List.mem_map.mp hp with ⟨q, hq, hpq⟩
    by_cases h : q.1 == k
    · rw [if_pos h] at hpq
      exact Or.inl hpq.symm
    · rw [if_neg h] at hpq
      exact Or.inr (hpq ▸ hq)
  · rcases List.mem_append.mp hp with h | h
    · exact Or.inr h
    · exact Or.inl (by simpa using h)

theorem lookupA_map_replace {α : Type} (l : List (String × α)) (k : String)
    (v : α) (h : (l.find? (fun p => p.1 == k)).isSome = true) :
    lookupA (l.map (fun p => if p.1 == k then (k, v) else p)) k = some v := by
  induction l with
  | nil => simp [List.find?] at h
  | cons p t ih =>
      by_cases hp : p.1 == k
      · simp [lookupA, List.find?, hp]
      · have h' : (t.find? (fun q => q.1 == k)).isSome = true := by
          simpa [List.find?, hp] using h
        simpa [lookupA, List.find?, hp] using ih h'

theorem lookupA_append_single {α : Type} (l : List (String × α)) (k : String)
    (v : α) (h : l.find? (fun p => p.1 == k) = none) :
    lookupA (l ++ [(k, v)]) k = some v := by
  induction l with
  | nil => simp [lookupA, List.find?]
  | cons p t ih =>
      have hp : (p.1 == k) = false := by
        by_contra hc
        simp only [List.find?, Bool.not_eq_false] at h hc
        rw [hc] at h
        cases h
      have h' : t.find? (fun q => q.1 == k) = none := by
        simpa [List.find?, hp] using h
      simpa [lookupA, List.find?, hp] using ih h'

theorem lookupA_setA_self {α : Type} (l : List (String × α)) (k : String)
    (v : α) : lookupA (setA l k v) k = some v := by
  unfold setA
  split
  · exact lookupA_map_replace l k v (by assumption)
  · refine lookupA_append_single l k v ?_
    rename_i h
    simp only [Option.isSome] at h
    rcases hf : l.find? (fun p => p.1 == k) with _ | q
    · exact hf
    · rw [hf] at h; simp at h

theorem appendBounded_length_le (l : List StreamMessage) (m : StreamMessage) :
    (appendBounded l m).length ≤ 1000 := by
  unfold appendBounded
  dsimp only
  split
  · rename_i h
    rw [List.length_drop]
    omega
  · rename_i h
    simp only [List.length_append, List.length_singleton] at *
    omega

theorem appendBounded_full (l : List StreamMessage) (m : StreamMessage)
    (h : l.length = 1000) : appendBounded l m = l.drop 1 ++ [m] := by
  unfold appendBounded
  dsimp only
  rw [if_pos (by simp [h])]
  simp only [List.length_append, List.length_singleton, h]
  rw [List.drop_append_of_le_length (by omega)]

theorem claim_C10_bounded_history (st : EventBus) (now : ℚ) (channel : String)
    (data : ItemData) (source : String)
    (hbound : ∀ p ∈ st.channels, p.2.length ≤ 1000) :
    (∀ p ∈ (st.xaddJson now channel data source).2.channels,
      p.2.length ≤ 1000) ∧
    (∀ old : List StreamMessage,
      (st.xaddJson now channel data source).1 = true →
      lookupA st.channels channel = some old → old.length = 1000 →
      ∃ m : StreamMessage,
        lookupA (st.xaddJson now channel data source).2.channels channel =
          some (old.drop 1 ++ [m])) := by
  rcases xaddJson_shape st now channel data source with ⟨hf, hc⟩ | ⟨ht, m, hc⟩
  · refine ⟨?_, ?_⟩
    · rw [hc]; exact hbound
    · intro old htr
      rw [hf] at htr
      cases htr
  · refine ⟨?_, ?_⟩
    · intro p hp
      rw [hc] at hp
      rcases mem_setA hp with rfl | hmem
      · exact appendBounded_length_le _ _
      · exact hbound p hmem
    · intro old _ hold hlen
      refine ⟨m, ?_⟩
      rw [hc, lookupA_setA_self]
      rw [hold]
      simp only [Option.getD_some]
      rw [appendBounded_full old m hlen]

unseal Rat.sub Rat.add Rat.mul in
set_option maxRecDepth 8000 in
/-- C2 witness. -/
theorem claim_C2_witness :
    validateRawItem ⟨some "abc", some "T", some "http://x/1",
      some "2024-01-01T00:00:00Z", some "s", some "p"⟩ = true ∧
    (lookupA (cleanupRecent 200 3600 10000 [("abc", 100)]) "abc").isSome
      = true ∧
    ((⟨10000, 3600, 10, [], [("abc", 100)], []⟩ : EventBus).xaddJson 200
      "news.raw" ⟨some "abc", some "T", some "http://x/1",
        some "2024-01-01T00:00:00Z", some "s", some "p"⟩ "src").1 = false :=
  ⟨by decide, by decide,
    (claim_C2_duplicate_rejected _ _ _ _ _ "abc" rfl (by decide)
      (by decide)).1⟩

unseal Rat.sub Rat.add Rat.mul in
/-- C3 witness. -/
theorem claim_C3_witness :
    (⟨10000, 3600, 10, [], [], []⟩ : EventBus).defaultRateLimit = 10 ∧
    lookupA (⟨10000, 3600, 10, [], [], []⟩ : EventBus).rateLimiters "src"
      = none ∧
    pyInt (10 * 5) = (50 : Int) ∧
    allowCount (((⟨10000, 3600, 10, [], [], []⟩ : EventBus).getRateLimiter
      "src" 0).1) 0 (50 + 3) = (50, 3) :=
  ⟨rfl, by decide, by decide,
    (claim_C3_burst _ "src" 0 10 50 3 rfl (by decide) (by decide)).1⟩

/-- C8 witness. -/
theorem claim_C8_witness :
    validateRawItem ⟨none, some "T", some "http://x", none, some "s",
      some "p"⟩ = false ∧
    ((⟨10000, 3600, 10, [("news.raw", [])], [], []⟩ : EventBus).xaddJson 0
      "news.raw" ⟨none, some "T", some "http://x", none, some "s",
        some "p"⟩ "src").1 = false :=
  ⟨by decide,
    (claim_C8_invalid_rejected _ 0 _ "src" (by decide)).1⟩

unseal Rat.sub Rat.add Rat.mul in
/-- C10 witness. -/
theorem claim_C10_witness :
    (∀ p ∈ ([("news.raw", [])] : List (String × List StreamMessage)),
      p.2.length ≤ 1000) ∧
    (∀ p ∈ ((⟨10000, 3600, 10, [("news.raw", [])], [], []⟩ :
        EventBus).xaddJson 0 "ch"
        ⟨some "i", none, none, none, none, none⟩ "src").2.channels,
      p.2.length ≤ 1000) :=
  ⟨by decide,
    (claim_C10_bounded_history _ 0 "ch" _ "src" (by decide)).1⟩

/-- C5, as stated, fails: at interval 120 with the default settings
(baseline 60, so the `2 × baseline` cap equals 120 — a state reachable by
one backoff escalation from the baseline), a not-modified outcome leaves
the interval at 120 instead of strictly increasing it. -/
theorem claim_C5_counterexample :
    ¬ (120 < updateHostInterval defaultWorkerSettings [some 304] 0 120) := by
  have h : updateHostInterval defaultWorkerSettings [some 304] 0 120 = 120 := by
    norm_num [updateHostInterval, newInterval, outcomeFlags,
      defaultWorkerSettings, min_def]
  rw [h]
  norm_num

/-- C5 amended: when a host's interval is positive and small enough that
the `2 × baseline` cap is not hit within three steps, three consecutive
not-modified (or success-without-new-items) outcomes strictly increase the
interval each time; every such update computes
`min(interval * 1.1, 2 * baseline)`; and whenever `2 * baseline ≤
maxInterval` the result never exceeds `maxInterval`. -/
theorem claim_C5_notmodified_monotone (s : WorkerSettings) (i : ℚ)
    (codes : List (Option Nat)) (newItems : Nat)
    (h1 : ((outcomeFlags codes).hasSuccess && decide (0 < newItems)) = false)
    (h2 : ((outcomeFlags codes).hasNotModified ||
      ((outcomeFlags codes).hasSuccess && decide (newItems = 0))) = true)
    (hpos : 0 < i)
    (hroom : i * 1.1 * 1.1 < 2 * s.pollBaselineSeconds)
    (hcap : 2 * s.pollBaselineSeconds ≤ s.pollMaxSeconds) :
    (∀ x : ℚ, updateHostInterval s codes newItems x =
      min (x * 1.1) (2 * s.pollBaselineSeconds)) ∧
    i < updateHostInterval s codes newItems i ∧
    updateHostInterval s codes newItems i <
      updateHostInterval s codes newItems
        (updateHostInterval s codes newItems i) ∧
    updateHostInterval s codes newItems
        (updateHostInterval s codes newItems i) <
      updateHostInterval s codes newItems (updateHostInterval s codes newItems
        (updateHostInterval s codes newItems i)) ∧
    updateHostInterval s codes newItems (updateHostInterval s codes newItems
      (updateHostInterval s codes newItems i)) ≤ s.pollMaxSeconds := by
  have hu : ∀ x : ℚ, updateHostInterval s codes newItems x =
      min (x * 1.1) (2 * s.pollBaselineSeconds) := by
    intro x
    unfold updateHostInterval newInterval
    rw [h1, h2]
    simp
  have hB : i * 1.1 < 2 * s.pollBaselineSeconds := by nlinarith
  have hB2 : i * 1.1 * 1.1 < 2 * s.pollBaselineSeconds := hroom
  have e1 : updateHostInterval s codes newItems i = i * 1.1 := by
    rw [hu, min_eq_left (le_of_lt hB)]
  have e2 : updateHostInterval s codes newItems (i * 1.1) = i * 1.1 * 1.1 := by
    rw [hu, min_eq_left (le_of_lt hB2)]
  have hlt1 : i < i * 1.1 := by nlinarith
  have hlt2 : i * 1.1 < i * 1.1 * 1.1 := by nlinarith
  refine ⟨hu, ?_, ?_, ?_, ?_⟩
  · rw [e1]; exact hlt1
  · rw [e1, e2]; exact hlt2
  · rw [e1, e2, hu]
    refine lt_min ?_ hB2
    nlinarith
  · rw [e1, e2, hu]
    exact le_trans (min_le_right _ _) hcap

unseal Rat.mul Rat.add Rat.sub Rat.inv Rat.ofScientific in
/-- C5 amended witness: a fresh host at the 60s baseline with default
settings. -/
theorem claim_C5_notmodified_monotone_witness :
    (60 : ℚ) < updateHostInterval defaultWorkerSettings [some 304] 0 60 :=
  (claim_C5_notmodified_monotone defaultWorkerSettings 60 [some 304] 0
    (by decide) (by decide) (by decide) (by decide) (by decide)).2.1

/-- A canonical `sha256=`-prefixed signature strips back to its hex part. -/
theorem extractProvidedHash_sha256 (h : String) :
    extractProvidedHash ("sha256=" ++ h) = h := by
  unfold extractProvidedHash
  have hdata : ("sha256=" ++ h).data = "sha256=".data ++ h.data :=
    String.data_append _ _
  rw [hdata]
  rw [if_pos (by rw [List.isPrefixOf_iff_prefix]; exact List.prefix_append _ _)]
  have h7 : (7 : Nat) = ("sha256=".data).length := rfl
  rw [h7, List.drop_left]

/-- C4: with a configured secret, a missing or invalid signature yields an
authentication failure (the body is never handed to processing), a
verifying signature yields acceptance of the parsed body, and the
canonical `sha256=<HMAC-SHA256 hex>` signature of the body does verify. -/
theorem claim_C4_signature_gate (secret : String) (body : List Nat)
    (xSig xHub xSlack : Option String) (auth : String)
    (parsed : Option JValue) (hsec : secret ≠ "") :
    ((effectiveSignature xSig xHub xSlack auth = "" ∨
      validateSignature body (effectiveSignature xSig xHub xSlack auth)
        secret = false) →
      ∃ d, receiveWebhook secret body xSig xHub xSlack auth parsed =
        .unauthorized d) ∧
    (validateSignature body (effectiveSignature xSig xHub xSlack auth)
        secret = true →
      ∀ p, parsed = some p →
        receiveWebhook secret body xSig xHub xSlack auth parsed =
          .accepted p) ∧
    validateSignature body
      ("sha256=" ++ hmacSha256Hex (utf8Bytes secret) body) secret = true := by
  refine ⟨?_, ?_, ?_⟩
  · intro hbad
    unfold receiveWebhook
    rw [if_pos hsec]
    rcases hbad with hempty | hfail
    · rw [if_pos hempty]
      exact ⟨"Missing signature", rfl⟩
    · by_cases hempty : effectiveSignature xSig xHub xSlack auth = ""
      · rw [if_pos hempty]
        exact ⟨"Missing signature", rfl⟩
      · rw [if_neg hempty, if_pos (by rw [hfail]; rfl)]
        exact ⟨"Invalid signature", rfl⟩
  · intro hok p hp
    have hne : effectiveSignature xSig xHub xSlack auth ≠ "" := by
      intro he
      rw [he] at hok
      unfold validateSignature at hok
      rw [if_pos (by simp)] at hok
      cases hok
    unfold receiveWebhook
    rw [if_pos hsec, if_neg hne, if_neg (by rw [hok]; simp), hp]
  · unfold validateSignature
    have hne : ("sha256=" ++ hmacSha256Hex (utf8Bytes secret) body) ≠ "" := by
      intro he
      have := congrArg String.data he
      rw [String.data_append] at this
      simp at this
    rw [if_neg (by simp [hsec, hne])]
    rw [extractProvidedHash_sha256]
    simp

/-- C4 witness. -/
theorem claim_C4_signature_gate_witness :
    ("k" : String) ≠ "" ∧
    validateSignature (utf8Bytes "body")
      ("sha256=" ++ hmacSha256Hex (utf8Bytes "k") (utf8Bytes "body"))
      "k" = true :=
  ⟨by decide,
    (claim_C4_signature_gate "k" (utf8Bytes "body") none none none ""
      none (by decide)).2.2⟩

theorem mergeLoop_eq (conv : HubItem → HubItem) :
    ∀ (l : List HubItem) (acc : List HubItem) (seen : List String),
      mergeLoop conv l acc seen =
        (acc ++ (dedupFrom seen l).map conv, seenAfter seen l) := by
  intro l
  induction l with
  | nil => intro acc seen; simp [mergeLoop, dedupFrom, seenAfter]
  | cons x rest ih =>
      intro acc seen
      by_cases h : x.id.getD "" ≠ "" ∧ x.id.getD "" ∉ seen
      · simp only [mergeLoop, dedupFrom, seenAfter, if_pos h]
        rw [ih]
        simp
      · simp only [mergeLoop, dedupFrom, seenAfter, if_neg h]
        exact ih acc seen

theorem dedupFrom_append :
    ∀ (l1 l2 : List HubItem) (seen : List String),
      dedupFrom seen (l1 ++ l2) =
        dedupFrom seen l1 ++ dedupFrom (seenAfter seen l1) l2 := by
  intro l1
  induction l1 with
  | nil => intro l2 seen; simp [dedupFrom, seenAfter]
  | cons x rest ih =>
      intro l2 seen
      by_cases h : x.id.getD "" ≠ "" ∧ x.id.getD "" ∉ seen
      · simp only [List.cons_append, dedupFrom, seenAfter, if_pos h,
          List.append_eq]
        rw [ih]
      · simp only [List.cons_append, dedupFrom, seenAfter, if_neg h,
          List.append_eq]
        exact ih l2 seen

theorem dedupFrom_subset :
    ∀ (l : List HubItem) (seen : List String) (x : HubItem),
      x ∈ dedupFrom seen l → x ∈ l := by
  intro l
  induction l with
  | nil => intro seen x hx; simp [dedupFrom] at hx
  | cons y rest ih =>
      intro seen x hx
      by_cases h : y.id.getD "" ≠ "" ∧ y.id.getD "" ∉ seen
      · simp only [dedupFrom, if_pos h] at hx
        rcases List.mem_cons.mp hx with rfl | hx
        · exact List.mem_cons_self _ _
        · exact List.mem_cons_of_mem _ (ih _ _ hx)
      · simp only [dedupFrom, if_neg h] at hx
        exact List.mem_cons_of_mem _ (ih _ _ hx)

theorem id_eq_some_getD {x : HubItem} (h : x.id.getD "" ≠ "") :
    x.id = some (x.id.getD "") := by
  rcases hx : x.id with _ | a
  · rw [hx] at h; simp at h
  · simp

theorem dedupFrom_eq_dedupById :
    ∀ (l : List HubItem) (seen : List String),
      (∀ x ∈ l, x.id.getD "" ≠ "") →
      dedupFrom seen l =
        dedupById (l.filter (fun x => decide (x.id.getD "" ∉ seen))) := by
  intro l
  induction l with
  | nil => intro seen _; simp [dedupFrom, dedupById]
  | cons x rest ih =>
      intro seen hids
      have hi : x.id.getD "" ≠ "" := hids x (List.mem_cons_self _ _)
      by_cases hmem : x.id.getD "" ∈ seen
      · have hcond : ¬ (x.id.getD "" ≠ "" ∧ x.id.getD "" ∉ seen) := by
          intro hc; exact hc.2 hmem
        simp only [dedupFrom, if_neg hcond, List.filter_cons]
        rw [if_neg (by simpa using hmem)]
        exact ih seen (fun y hy => hids y (List.mem_cons_of_mem _ hy))
      · have hcond : x.id.getD "" ≠ "" ∧ x.id.getD "" ∉ seen := ⟨hi, hmem⟩
        simp only [dedupFrom, if_pos hcond, List.filter_cons]
        rw [if_pos (by simpa using hmem)]
        rw [dedupById]
        congr 1
        rw [ih (x.id.getD "" :: seen)
          (fun y hy => hids y (List.mem_cons_of_mem _ hy))]
        rw [List.filter_filter]
        congr 1
        apply List.filter_congr
        intro y hy
        have hyid : y.id.getD "" ≠ "" := hids y (List.mem_cons_of_mem _ hy)
        rw [id_eq_some_getD hyid, id_eq_some_getD hi]
        simp only [List.mem_cons]
        by_cases h1 : y.id.getD "" = x.id.getD "" <;>
          by_cases h2 : y.id.getD "" ∈ seen <;>
          simp [h1, h2]

/-- The legacy category→topic fill never changes an item's id. -/
theorem legacyConvert_id (x : HubItem) : (legacyConvert x).id = x.id := by
  unfold legacyConvert
  split <;> rfl

/-- First-occurrence filtering commutes with the legacy conversion, since
the conversion preserves ids. -/
theorem dedupFrom_map_legacy :
    ∀ (l : List HubItem) (seen : List String),
      dedupFrom seen (l.map legacyConvert) =
        (dedupFrom seen l).map legacyConvert := by
  intro l
  induction l with
  | nil => intro seen; simp [dedupFrom]
  | cons x rest ih =>
      intro seen
      by_cases h : x.id.getD "" ≠ "" ∧ x.id.getD "" ∉ seen
      · simp only [List.map_cons, dedupFrom, legacyConvert_id, if_pos h, ih]
      · simp only [List.map_cons, dedupFrom, legacyConvert_id, if_neg h, ih]

/-- C9: for every bus state and snapshot state whose items carry non-empty
ids (as accepted bus items and scheduler-written snapshot items do), the
hub's merged view is exactly: the union of bus items and snapshot items —
the latter as served, i.e. with the legacy `category`→`topic` fill the hub
applies to the scheduler's snapshot shape — deduplicated by id with bus
items taking precedence, ordered by `published` descending (stably),
truncated to `limit`; and the resulting list is sorted by `published`
descending. -/
theorem claim_C9_merge_policy (eventItems rssItems : List HubItem)
    (limit : Nat)
    (hbus : ∀ x ∈ eventItems, x.id.getD "" ≠ "")
    (hrss : ∀ x ∈ rssItems, x.id.getD "" ≠ "") :
    getLatestItems eventItems rssItems limit =
      (List.insertionSort pubDescRel
        (dedupById (eventItems ++ rssItems.map legacyConvert))).take limit ∧
    List.Sorted pubDescRel (getLatestItems eventItems rssItems limit) := by
  have hall : ∀ x ∈ eventItems ++ rssItems.map legacyConvert,
      x.id.getD "" ≠ "" := by
    intro x hx
    rcases List.mem_append.mp hx with h | h
    · exact hbus x h
    · rcases List.mem_map.mp h with ⟨y, hy, rfl⟩
      rw [legacyConvert_id]
      exact hrss y hy
  have key : (mergeLoop legacyConvert rssItems
      (mergeLoop (fun x => x) eventItems [] []).1
      (mergeLoop (fun x => x) eventItems [] []).2).1 =
      dedupById (eventItems ++ rssItems.map legacyConvert) := by
    rw [mergeLoop_eq, mergeLoop_eq]
    dsimp only
    have hmap1 : (dedupFrom [] eventItems).map (fun x => x) =
        dedupFrom [] eventItems := List.map_id' _
    rw [hmap1, ← dedupFrom_map_legacy, List.nil_append, ← dedupFrom_append]
    rw [dedupFrom_eq_dedupById _ _ hall]
    congr 1
    refine List.filter_eq_self.mpr ?_
    intro x _
    simp
  refine ⟨?_, ?_⟩
  · unfold getLatestItems
    dsimp only
    rw [key]
  · unfold getLatestItems
    dsimp only
    exact List.Pairwise.sublist (List.take_sublist _ _)
      (List.sorted_insertionSort pubDescRel _)

/-- C9 witness: a bus item and a legacy-shaped snapshot item (category
set, no topic — the shape the scheduler's snapshot file holds) sharing id
"a" (bus copy kept), plus a distinct legacy-shaped snapshot item. -/
theorem claim_C9_merge_policy_witness :
    (∀ x ∈ [({ id := some "a", published := some "2024-01-02", topic := some "t" } : HubItem)],
      x.id.getD "" ≠ "") ∧
    getLatestItems
      [{ id := some "a", published := some "2024-01-02", topic := some "t" }]
      [{ id := some "a", published := some "2024-01-01", category := some "general" },
       { id := some "b", published := some "2024-01-03", category := some "general" }] 50 =
      (List.insertionSort pubDescRel (dedupById
        ([({ id := some "a", published := some "2024-01-02", topic := some "t" } : HubItem)] ++
         ([({ id := some "a", published := some "2024-01-01", category := some "general" } : HubItem),
           { id := some "b", published := some "2024-01-03", category := some "general" }].map
            legacyConvert)))).take 50 :=
  ⟨by decide,
    (claim_C9_merge_policy _ _ 50 (by decide) (by decide)).1⟩

/-- C6 (code bug): the webhook normalizer's boundary leaks.  On the
payload `{"vendor": 123}` with no vendor headers, computing the vendor
hint raises (`.lower()` on an `int`), and the `except` handler's log line
then references the unassigned local `vendor`, so `map_webhook_payload_to_raw`
raises an `UnboundLocalError` past its boundary instead of returning
`None` as its contract and docstring state.  `safe_map_payload`'s outer
handler swallows the same failure into `none`. -/
theorem claim_C6_webhook_mapper_raises :
    mapWebhookPayloadToRaw "2024-01-01T00:00:00+00:00"
      [("vendor", .num 123)] [] = .error .unboundLocalError ∧
    safeMapPayload "2024-01-01T00:00:00+00:00" [("vendor", .num 123)]
      "webhook" none (some [("Host", "example.com")]) = none :=
  ⟨rfl, rfl⟩

end MI3